import Mathlib

/-!
Shallow embedding of the blood-language implementation (FANNYMU/blood-language):
the AST (src/ast.rs), the recursive-descent parser (src/parser.rs) and the
tree-walking interpreter (src/interpreter.rs), together with theorems about
the scoping, control-flow and arithmetic behaviour of the interpreter and the
shape of the ASTs the parser produces.

Modelling conventions:
- Rust `i64` is embedded as `Int`; the wrapping behaviour of release-mode
  `+`, `-`, `*` is made explicit through `wrap64` (two's complement on 64
  bits), and the overflow panics that Rust checks unconditionally for `/`
  and `%` (`i64::MIN / -1`) are embedded as errors.
- `HashMap<String, Variable>` scopes are embedded as association lists with
  `scopeFind` / `scopeInsert` providing the lookup / overwriting-insert
  semantics of the hash map.
- Rust panics (`unwrap`, `panic!`, `unreachable!`) are embedded as `.error`
  results, like the `Err` values the interpreter itself produces; both abort
  the run.
- The mutually recursive evaluator (`eval_expr` / `execute_stmt` and the
  loops inside them) is embedded as a single fuel-indexed function `run`
  over a sum type `Code` of pending work, so that concrete executions reduce
  definitionally; named wrappers (`Interpreter.eval_expr`,
  `Interpreter.execute_stmt`, ...) recover the source's entry points.
  The parser is embedded the same way (`runP` over `PCode`).
- `println!` output is outside the model: `print(e)` evaluates its argument
  and discards the value.
-/

namespace Blood

/-- Operators of the language (src/ast.rs, `enum Op`). -/
inductive Op where
  | Add | Sub | Mul | Div | Mod
  | Equal | NotEqual | Lt | Gt | LtEq | GtEq
  | And | Or
  | Not
deriving DecidableEq, Repr

/-- Expressions (src/ast.rs, `enum Expr`); `Number` carries the `i64` payload. -/
inductive Expr where
  | Number (val : Int)
  | Boolean (val : Bool)
  | Nil
  | Variable (name : String)
  | Binary (left : Expr) (op : Op) (right : Expr)
  | Unary (op : Op) (operand : Expr)
  | Call (name : String) (args : List Expr)

/-- Statements (src/ast.rs, `enum Stmt`). -/
inductive Stmt where
  | Let (name : String) (mutable : Bool) (value : Expr)
  | Assign (name : String) (value : Expr)
  | Print (e : Expr)
  | If (condition : Expr) (then_branch : List Stmt) (else_branch : Option (List Stmt))
  | While (condition : Expr) (body : List Stmt)
  | Loop (body : List Stmt)
  | Break
  | Continue
  | Return (e : Expr)
  | Fn (name : String) (params : List String) (body : List Stmt)
  | ExprStmt (e : Expr)

/-- Runtime values (src/interpreter.rs, `enum Value`). -/
inductive Value where
  | Integer (v : Int)
  | Boolean (v : Bool)
  | Nil
  | Function (name : String) (params : List String) (body : List Stmt)

/-- A binding: value plus mutability flag (src/interpreter.rs, `struct Variable`). -/
structure Variable where
  value : Value
  mutable : Bool

/-- Control signal of one statement (src/interpreter.rs, `enum ExecutionResult`). -/
inductive ExecutionResult where
  | Normal
  | Break
  | Continue
  | Return (v : Value)

/-- One lexical scope: the embedding of `HashMap<String, Variable>`. -/
abbrev Scope := List (String × Variable)

/-- One stack frame: its scopes, innermost first (the Rust `Vec` keeps the
innermost scope last and iterates it in reverse; the list here is kept in
lookup order). -/
abbrev Frame := List Scope

/-- Lookup in one scope (the hash map's `get` / `contains_key`). -/
def scopeFind : Scope → String → Option Variable
  | [], _ => none
  | (k, w) :: rest, n => if k = n then some w else scopeFind rest n

/-- Overwriting insert into one scope (the hash map's `insert`). -/
def scopeInsert (sc : Scope) (n : String) (w : Variable) : Scope :=
  (n, w) :: sc.filter (fun p => p.1 ≠ n)

/-- Interpreter state (src/interpreter.rs, `struct Interpreter`); the head of
`call_stack` is the current frame (top of the Rust `Vec`). -/
structure Interpreter where
  globals : Scope
  call_stack : List Frame
  loop_depth : Nat
  function_depth : Nat

/-- Fresh interpreter (src/interpreter.rs, `Interpreter::new`): empty globals,
one frame holding one empty scope, both depth counters zero. -/
def Interpreter.new : Interpreter :=
  { globals := [], call_stack := [[[]]], loop_depth := 0, function_depth := 0 }

/-- Push a fresh innermost scope onto the current frame
(src/interpreter.rs, `enter_scope`; the `unwrap` on an empty call stack is
unreachable from `new`). -/
def Interpreter.enter_scope (s : Interpreter) : Interpreter :=
  match s.call_stack with
  | [] => s
  | f :: r => { s with call_stack := ([] :: f) :: r }

/-- Pop the innermost scope of the current frame (src/interpreter.rs,
`exit_scope`; `Vec::pop` on an empty frame is a no-op). -/
def Interpreter.exit_scope (s : Interpreter) : Interpreter :=
  match s.call_stack with
  | [] => s
  | f :: r => { s with call_stack := f.tail :: r }

/-- Declare a binding (src/interpreter.rs, `define_variable`): at function
depth zero the name goes into the globals (error if already present there);
otherwise into the innermost scope of the current frame (error if already
present in that one scope). -/
def Interpreter.define_variable (s : Interpreter) (name : String) (v : Value)
    (m : Bool) : Except String Interpreter :=
  if s.function_depth = 0 then
    match scopeFind s.globals name with
    | some _ =>
        .error ("Runtime Error: Global variable '" ++ name ++ "' already declared.")
    | none => .ok { s with globals := scopeInsert s.globals name ⟨v, m⟩ }
  else
    match s.call_stack with
    | (sc :: scs) :: stack =>
        match scopeFind sc name with
        | some _ =>
            .error ("Runtime Error: Variable '" ++ name ++
              "' already declared in this scope.")
        | none =>
            .ok { s with call_stack := (scopeInsert sc name ⟨v, m⟩ :: scs) :: stack }
    | _ => .error "Interpreter invariant: empty call stack or frame"

/-- Assignment search over the current frame's scopes, innermost first
(src/interpreter.rs, `assign_variable`, frame part): `none` when the name is
absent from every scope, otherwise the updated scopes or the immutability
error. -/
def assignScopes (scopes : List Scope) (name : String) (v : Value) :
    Option (Except String (List Scope)) :=
  match scopes with
  | [] => none
  | sc :: rest =>
      match scopeFind sc name with
      | some w =>
          if w.mutable then
            some (.ok (scopeInsert sc name ⟨v, w.mutable⟩ :: rest))
          else
            some (.error ("Runtime Error: Cannot reassign immutable variable '" ++
              name ++ "'."))
      | none => (assignScopes rest name v).map (fun r => r.map (fun l => sc :: l))

/-- Assign to an existing binding (src/interpreter.rs, `assign_variable`):
current frame's scopes innermost to outermost, then the globals. -/
def Interpreter.assign_variable (s : Interpreter) (name : String) (v : Value) :
    Except String Interpreter :=
  match s.call_stack with
  | frame :: stack =>
      match assignScopes frame name v with
      | some (.ok frame') => .ok { s with call_stack := frame' :: stack }
      | some (.error e) => .error e
      | none =>
          match scopeFind s.globals name with
          | some w =>
              if w.mutable then
                .ok { s with globals := scopeInsert s.globals name ⟨v, w.mutable⟩ }
              else
                .error ("Runtime Error: Cannot reassign immutable variable '" ++
                  name ++ "'.")
          | none => .error ("Runtime Error: Variable '" ++ name ++ "' not found.")
  | [] => .error "Interpreter invariant: empty call stack"

/-- Lookup over the current frame's scopes, innermost first. -/
def findScopes (scopes : List Scope) (name : String) : Option Value :=
  match scopes with
  | [] => none
  | sc :: rest =>
      match scopeFind sc name with
      | some w => some w.value
      | none => findScopes rest name

/-- Read a binding (src/interpreter.rs, `get_variable`): current frame's
scopes innermost to outermost, then the globals. -/
def Interpreter.get_variable (s : Interpreter) (name : String) :
    Except String Value :=
  match s.call_stack with
  | frame :: _ =>
      match findScopes frame name with
      | some v => .ok v
      | none =>
          match scopeFind s.globals name with
          | some w => .ok w.value
          | none => .error ("Runtime Error: Variable '" ++ name ++ "' not defined.")
  | [] => .error "Interpreter invariant: empty call stack"

/-- Two's-complement wrap onto the 64-bit signed range, the release-mode
behaviour of Rust `i64` `+`, `-`, `*`. -/
def wrap64 (x : Int) : Int :=
  (x + 9223372036854775808) % 18446744073709551616 - 9223372036854775808

mutual

/-- Structural equality on expressions (the derived `PartialEq` of
src/ast.rs `Expr`). -/
def Expr.beq : Expr → Expr → Bool
  | .Number a, .Number b => a == b
  | .Boolean a, .Boolean b => a == b
  | .Nil, .Nil => true
  | .Variable a, .Variable b => a == b
  | .Binary l1 o1 r1, .Binary l2 o2 r2 =>
      Expr.beq l1 l2 && o1 == o2 && Expr.beq r1 r2
  | .Unary o1 e1, .Unary o2 e2 => o1 == o2 && Expr.beq e1 e2
  | .Call n1 a1, .Call n2 a2 => n1 == n2 && exprsBeq a1 a2
  | _, _ => false

/-- Structural equality on expression lists. -/
def exprsBeq : List Expr → List Expr → Bool
  | [], [] => true
  | e1 :: r1, e2 :: r2 => Expr.beq e1 e2 && exprsBeq r1 r2
  | _, _ => false

/-- Structural equality on statements (the derived `PartialEq` of
src/ast.rs `Stmt`). -/
def Stmt.beq : Stmt → Stmt → Bool
  | .Let n1 m1 v1, .Let n2 m2 v2 => n1 == n2 && m1 == m2 && Expr.beq v1 v2
  | .Assign n1 v1, .Assign n2 v2 => n1 == n2 && Expr.beq v1 v2
  | .Print e1, .Print e2 => Expr.beq e1 e2
  | .If c1 t1 e1, .If c2 t2 e2 =>
      Expr.beq c1 c2 && stmtsBeq t1 t2 && optStmtsBeq e1 e2
  | .While c1 b1, .While c2 b2 => Expr.beq c1 c2 && stmtsBeq b1 b2
  | .Loop b1, .Loop b2 => stmtsBeq b1 b2
  | .Break, .Break => true
  | .Continue, .Continue => true
  | .Return e1, .Return e2 => Expr.beq e1 e2
  | .Fn n1 p1 b1, .Fn n2 p2 b2 => n1 == n2 && p1 == p2 && stmtsBeq b1 b2
  | .ExprStmt e1, .ExprStmt e2 => Expr.beq e1 e2
  | _, _ => false

/-- Structural equality on statement lists. -/
def stmtsBeq : List Stmt → List Stmt → Bool
  | [], [] => true
  | s1 :: r1, s2 :: r2 => Stmt.beq s1 s2 && stmtsBeq r1 r2
  | _, _ => false

/-- Structural equality on optional statement lists (else branches). -/
def optStmtsBeq : Option (List Stmt) → Option (List Stmt) → Bool
  | none, none => true
  | some l1, some l2 => stmtsBeq l1 l2
  | _, _ => false

end

/-- Structural equality on runtime values (the derived `PartialEq` of
src/interpreter.rs `Value`), used by the `==` / `!=` operators. -/
def Value.beq : Value → Value → Bool
  | .Integer a, .Integer b => a == b
  | .Boolean a, .Boolean b => a == b
  | .Nil, .Nil => true
  | .Function n1 p1 b1, .Function n2 p2 b2 => n1 == n2 && p1 == p2 && stmtsBeq b1 b2
  | _, _ => false

/-- Integer-only binary arithmetic (src/interpreter.rs, `arithmetic`). -/
def arithmetic (l r : Value) (op : Int → Int → Int) : Except String Value :=
  match l, r with
  | .Integer a, .Integer b => .ok (.Integer (op a b))
  | _, _ => .error "Runtime Error: Operands must be integers."

/-- Integer-only comparison (src/interpreter.rs, `comparison`). -/
def comparison (l r : Value) (op : Int → Int → Bool) : Except String Value :=
  match l, r with
  | .Integer a, .Integer b => .ok (.Boolean (op a b))
  | _, _ => .error "Runtime Error: Comparison operands must be integers."

/-- Bind the parameters of a call into the one scope of the fresh frame
(src/interpreter.rs, `eval_expr`, `Expr::Call` arm: `zip` plus hash-map
insert). -/
def bindParams (params : List String) (vals : List Value) : Scope :=
  (params.zip vals).foldl (fun sc pv => scopeInsert sc pv.1 ⟨pv.2, false⟩) []

/-- Pending work for the evaluator: an expression, an argument list, one
statement, a statement sequence inside a block, the iteration loop of a
`while` or `loop`, or a function body. -/
inductive Code where
  | expr (e : Expr)
  | argList (args : List Expr)
  | stmt (st : Stmt)
  | seq (l : List Stmt)
  | whileIter (condition : Expr) (body : List Stmt)
  | loopIter (body : List Stmt)
  | callBody (l : List Stmt)

/-- Result of one piece of pending work: a value for `expr`, the evaluated
arguments for `argList`, a control signal for `stmt` / `seq` / the loop
iterations, and the value a function body returns for `callBody`. -/
inductive Res where
  | val (v : Value)
  | vals (vs : List Value)
  | sig (r : ExecutionResult)
  | ret (v : Value)

/-- Error text for the kind mismatches that the `Code` / `Res` sum encoding
introduces; no reachable execution produces it. -/
def invariantMsg : String := "Interpreter invariant: result of the wrong kind"

/-- Wrap a `Value`-producing step (`arithmetic` / `comparison`) back into the
evaluator's result type, pairing it with the current state. -/
def liftVal (r : Except String Value) (s : Interpreter) :
    Except String (Res × Interpreter) :=
  match r with
  | .ok v => .ok (.val v, s)
  | .error msg => .error msg

/-- One fuel-indexed step function covering the whole mutually recursive
evaluator of src/interpreter.rs: `eval_expr` (with its argument-evaluation
loop), `execute_stmt` (with the statement loops of `if` branches and loop
bodies, and the iteration loops of `While` / `Loop`), and the function-body
loop of `Expr::Call`. Fuel 0 is exhaustion; every recursive call spends one
unit, so any terminating Rust execution is reproduced by a large enough
fuel. -/
def run : Nat → Interpreter → Code → Except String (Res × Interpreter)
  | 0, _, _ => .error "Interpreter fuel exhausted"
  | n + 1, s, c =>
    match c with
    | .expr e =>
      match e with
      | .Number v => .ok (.val (.Integer v), s)
      | .Boolean b => .ok (.val (.Boolean b), s)
      | .Nil => .ok (.val .Nil, s)
      | .Variable name =>
        match s.get_variable name with
        | .ok v => .ok (.val v, s)
        | .error msg => .error msg
      | .Unary op right =>
        match run n s (.expr right) with
        | .ok (.val r, s1) =>
          match op with
          | .Not =>
            match r with
            | .Boolean b => .ok (.val (.Boolean (!b)), s1)
            | _ => .error "Runtime Error: 'not' expects a boolean."
          | _ => .error "Interpreter panic: unary op not implemented"
        | .ok _ => .error invariantMsg
        | .error msg => .error msg
      | .Binary left op right =>
        match run n s (.expr left) with
        | .ok (.val l, s1) =>
          match run n s1 (.expr right) with
          | .ok (.val r, s2) =>
            match op with
            | .Add => liftVal (arithmetic l r (fun a b => wrap64 (a + b))) s2
            | .Sub => liftVal (arithmetic l r (fun a b => wrap64 (a - b))) s2
            | .Mul => liftVal (arithmetic l r (fun a b => wrap64 (a * b))) s2
            | .Div =>
              match l, r with
              | .Integer a, .Integer b =>
                if b = 0 then .error "Runtime Error: Division by zero."
                else if a = -9223372036854775808 ∧ b = -1 then
                  .error "Runtime panic: attempt to divide with overflow"
                else .ok (.val (.Integer (Int.tdiv a b)), s2)
              | _, _ => .error "Runtime Error: Operands must be integers."
            | .Mod =>
              match l, r with
              | .Integer a, .Integer b =>
                if b = 0 then .error "Runtime Error: Modulo by zero."
                else if a = -9223372036854775808 ∧ b = -1 then
                  .error "Runtime panic: attempt to calculate the remainder with overflow"
                else .ok (.val (.Integer (Int.tmod a b)), s2)
              | _, _ => .error "Runtime Error: Operands must be integers."
            | .Equal => .ok (.val (.Boolean (Value.beq l r)), s2)
            | .NotEqual => .ok (.val (.Boolean (!(Value.beq l r))), s2)
            | .Lt => liftVal (comparison l r (fun a b => decide (a < b))) s2
            | .Gt => liftVal (comparison l r (fun a b => decide (a > b))) s2
            | .LtEq => liftVal (comparison l r (fun a b => decide (a ≤ b))) s2
            | .GtEq => liftVal (comparison l r (fun a b => decide (a ≥ b))) s2
            | .And =>
              match l, r with
              | .Boolean a, .Boolean b => .ok (.val (.Boolean (a && b)), s2)
              | _, _ => .error "Runtime Error: 'and' operands must be booleans."
            | .Or =>
              match l, r with
              | .Boolean a, .Boolean b => .ok (.val (.Boolean (a || b)), s2)
              | _, _ => .error "Runtime Error: 'or' operands must be booleans."
            | .Not => .error "Interpreter panic: binary op not implemented"
          | .ok _ => .error invariantMsg
          | .error msg => .error msg
        | .ok _ => .error invariantMsg
        | .error msg => .error msg
      | .Call name args =>
        match s.get_variable name with
        | .error msg => .error msg
        | .ok funcVal =>
          match funcVal with
          | .Function _ params body =>
            if args.length ≠ params.length then
              .error ("Runtime error: expected " ++ toString params.length ++
                " argument, got " ++ toString args.length)
            else
              match run n s (.argList args) with
              | .ok (.vals arg_vals, s1) =>
                let s2 : Interpreter :=
                  { s1 with
                    call_stack := [bindParams params arg_vals] :: s1.call_stack,
                    function_depth := s1.function_depth + 1 }
                let old_loop_depth := s2.loop_depth
                match run n { s2 with loop_depth := 0 } (.callBody body) with
                | .ok (.ret return_val, s3) =>
                  .ok (.val return_val,
                    { s3 with
                      loop_depth := old_loop_depth,
                      function_depth := s3.function_depth - 1,
                      call_stack := s3.call_stack.tail })
                | .ok _ => .error invariantMsg
                | .error msg => .error msg
              | .ok _ => .error invariantMsg
              | .error msg => .error msg
          | _ => .error ("Runtime Error: '" ++ name ++ "' is not a function.")
    | .argList args =>
      match args with
      | [] => .ok (.vals [], s)
      | a :: rest =>
        match run n s (.expr a) with
        | .ok (.val v, s1) =>
          match run n s1 (.argList rest) with
          | .ok (.vals vs, s2) => .ok (.vals (v :: vs), s2)
          | .ok _ => .error invariantMsg
          | .error msg => .error msg
        | .ok _ => .error invariantMsg
        | .error msg => .error msg
    | .stmt st =>
      match st with
      | .Let name mutable value =>
        match run n s (.expr value) with
        | .ok (.val v, s1) =>
          match s1.define_variable name v mutable with
          | .ok s2 => .ok (.sig .Normal, s2)
          | .error msg => .error msg
        | .ok _ => .error invariantMsg
        | .error msg => .error msg
      | .Assign name value =>
        match run n s (.expr value) with
        | .ok (.val v, s1) =>
          match s1.assign_variable name v with
          | .ok s2 => .ok (.sig .Normal, s2)
          | .error msg => .error msg
        | .ok _ => .error invariantMsg
        | .error msg => .error msg
      | .Print e =>
        match run n s (.expr e) with
        | .ok (.val _, s1) => .ok (.sig .Normal, s1)
        | .ok _ => .error invariantMsg
        | .error msg => .error msg
      | .ExprStmt e =>
        match run n s (.expr e) with
        | .ok (.val _, s1) => .ok (.sig .Normal, s1)
        | .ok _ => .error invariantMsg
        | .error msg => .error msg
      | .If condition then_branch else_branch =>
        match run n s (.expr condition) with
        | .ok (.val cond_val, s1) =>
          match cond_val with
          | .Boolean cond_bool =>
            if cond_bool then
              match run n s1.enter_scope (.seq then_branch) with
              | .ok (.sig res, s2) => .ok (.sig res, s2.exit_scope)
              | .ok _ => .error invariantMsg
              | .error msg => .error msg
            else
              match else_branch with
              | some else_stmts =>
                match run n s1.enter_scope (.seq else_stmts) with
                | .ok (.sig res, s2) => .ok (.sig res, s2.exit_scope)
                | .ok _ => .error invariantMsg
                | .error msg => .error msg
              | none => .ok (.sig .Normal, s1)
          | _ => .error "Runtime error: condition must be boolean"
        | .ok _ => .error invariantMsg
        | .error msg => .error msg
      | .While condition body =>
        match run n { s with loop_depth := s.loop_depth + 1 }
            (.whileIter condition body) with
        | .ok (.sig res, s1) =>
          .ok (.sig res, { s1 with loop_depth := s1.loop_depth - 1 })
        | .ok _ => .error invariantMsg
        | .error msg => .error msg
      | .Loop body =>
        match run n { s with loop_depth := s.loop_depth + 1 } (.loopIter body) with
        | .ok (.sig res, s1) =>
          .ok (.sig res, { s1 with loop_depth := s1.loop_depth - 1 })
        | .ok _ => .error invariantMsg
        | .error msg => .error msg
      | .Break =>
        if s.loop_depth = 0 then
          .error "Runtime error: 'break' used outside of loop"
        else .ok (.sig .Break, s)
      | .Continue =>
        if s.loop_depth = 0 then
          .error "Runtime error: 'continue' used outside of loop"
        else .ok (.sig .Continue, s)
      | .Fn name params body =>
        match s.define_variable name (.Function name params body) false with
        | .ok s1 => .ok (.sig .Normal, s1)
        | .error msg => .error msg
      | .Return e =>
        if s.function_depth = 0 then
          .error "Runtime error: 'return' used outside of function"
        else
          match run n s (.expr e) with
          | .ok (.val v, s1) => .ok (.sig (.Return v), s1)
          | .ok _ => .error invariantMsg
          | .error msg => .error msg
    | .seq l =>
      match l with
      | [] => .ok (.sig .Normal, s)
      | st :: rest =>
        match run n s (.stmt st) with
        | .ok (.sig .Normal, s1) => run n s1 (.seq rest)
        | .ok (.sig res, s1) => .ok (.sig res, s1)
        | .ok _ => .error invariantMsg
        | .error msg => .error msg
    | .whileIter condition body =>
      match run n s (.expr condition) with
      | .ok (.val cond_val, s1) =>
        match cond_val with
        | .Boolean cond_bool =>
          if cond_bool then
            match run n s1.enter_scope (.seq body) with
            | .ok (.sig res, s2) =>
              match res with
              | .Return v => .ok (.sig (.Return v), s2.exit_scope)
              | .Break => .ok (.sig .Normal, s2.exit_scope)
              | _ => run n s2.exit_scope (.whileIter condition body)
            | .ok _ => .error invariantMsg
            | .error msg => .error msg
          else .ok (.sig .Normal, s1)
        | _ => .error "Runtime error: while condition must be boolean"
      | .ok _ => .error invariantMsg
      | .error msg => .error msg
    | .loopIter body =>
      match run n s.enter_scope (.seq body) with
      | .ok (.sig res, s1) =>
        match res with
        | .Return v => .ok (.sig (.Return v), s1.exit_scope)
        | .Break => .ok (.sig .Normal, s1.exit_scope)
        | _ => run n s1.exit_scope (.loopIter body)
      | .ok _ => .error invariantMsg
      | .error msg => .error msg
    | .callBody l =>
      match l with
      | [] => .ok (.ret .Nil, s)
      | st :: rest =>
        match run n s (.stmt st) with
        | .ok (.sig (.Return v), s1) => .ok (.ret v, s1)
        | .ok (.sig _, s1) => run n s1 (.callBody rest)
        | .ok _ => .error invariantMsg
        | .error msg => .error msg

/-- Entry point `Interpreter::eval_expr` (src/interpreter.rs): evaluate one
expression, returning its value and the updated interpreter. -/
def Interpreter.eval_expr (fuel : Nat) (s : Interpreter) (e : Expr) :
    Except String (Value × Interpreter) :=
  match run fuel s (.expr e) with
  | .ok (.val v, s1) => .ok (v, s1)
  | .ok _ => .error invariantMsg
  | .error msg => .error msg

/-- Entry point `Interpreter::execute_stmt` (src/interpreter.rs): execute one
statement, returning its control signal and the updated interpreter. -/
def Interpreter.execute_stmt (fuel : Nat) (s : Interpreter) (st : Stmt) :
    Except String (ExecutionResult × Interpreter) :=
  match run fuel s (.stmt st) with
  | .ok (.sig r, s1) => .ok (r, s1)
  | .ok _ => .error invariantMsg
  | .error msg => .error msg

/-- Entry point `Interpreter::interpret` (src/interpreter.rs): execute the
program's statements in order; a Break / Continue / Return signal escaping a
top-level statement is the corresponding dedicated runtime error. -/
def Interpreter.interpret (fuel : Nat) (s : Interpreter) :
    List Stmt → Except String Interpreter
  | [] => .ok s
  | st :: rest =>
    match run fuel s (.stmt st) with
    | .ok (.sig .Normal, s1) => Interpreter.interpret fuel s1 rest
    | .ok (.sig .Break, _) =>
      .error "Runtime error: 'break' used outside of loop"
    | .ok (.sig .Continue, _) =>
      .error "Runtime error: 'continue' used outside of loop"
    | .ok (.sig (.Return _), _) =>
      .error "Runtime error: 'return' used outside of function"
    | .ok _ => .error invariantMsg
    | .error msg => .error msg

/-- Tokens (src/lexer.rs, `enum Token`). -/
inductive Token where
  | Let | Mod | Print | If | Then | Else | ElseIf | End
  | While | Do | Loop | Break | Continue | Fn | Return
  | Nil | True | False | And | Or | Not
  | Identifier (name : String)
  | Number (val : Int)
  | Plus | Minus | Star | Slash | Percent
  | Equal | EqualEqual | BangEqual
  | Less | Greater | LessEqual | GreaterEqual
  | LParen | RParen | Comma
  | EOF
deriving DecidableEq, Repr

/-- The parser's current token: the head of the remaining stream, or `EOF`
once the stream is exhausted (the Rust lexer keeps returning `EOF`). -/
def cur (toks : List Token) : Token := toks.headD .EOF

/-- Advance past the current token. -/
def adv : List Token → List Token
  | [] => []
  | _ :: rest => rest

/-- Payload-independent token-kind comparison: the `std::mem::discriminant`
check of `Parser::eat` (src/parser.rs), under which any two identifiers, or
any two numbers, match. -/
def Token.sameKind : Token → Token → Bool
  | .Identifier _, .Identifier _ => true
  | .Number _, .Number _ => true
  | a, b => a == b

/-- Consume the current token after checking its kind (src/parser.rs,
`Parser::eat`); the mismatch `panic!` is an error. -/
def eat (expected : Token) (toks : List Token) : Except String (List Token) :=
  if (cur toks).sameKind expected then .ok (adv toks)
  else .error "Parser panic: expected token kind not found"

/-- End-of-block lookahead (src/parser.rs, `check_end_of_block`). -/
def check_end_of_block (toks : List Token) : Bool :=
  cur toks = .End || cur toks = .Else || cur toks = .ElseIf || cur toks = .EOF

/-- Pending work for the parser: one constructor per method of the Rust
`Parser` plus one per `while` loop inside a method (the statement loops of
`parse_program` and of block bodies, the operand-folding loops of the
precedence levels, and the comma-separated parameter / argument loops). -/
inductive PCode where
  | pprogram
  | pstatement
  | pidentifier_stmt
  | pfn
  | pparams
  | preturn
  | parguments
  | pargloop
  | pwhile
  | ploop
  | pif
  | precursive_elseif
  | pblock
  | pelse_block
  | plet
  | pprint
  | pexpr
  | plogic_or
  | por_loop (left : Expr)
  | plogic_and
  | pand_loop (left : Expr)
  | pequality
  | peq_loop (left : Expr)
  | prelational
  | prel_loop (left : Expr)
  | pterm
  | pterm_loop (left : Expr)
  | pfactor
  | pfactor_loop (left : Expr)
  | punary
  | pprimary

/-- Result of one piece of parsing work. -/
inductive PRes where
  | stmt (st : Stmt)
  | stmts (l : List Stmt)
  | expr (e : Expr)
  | exprs (l : List Expr)
  | names (l : List String)

/-- Error text for the kind mismatches of the `PCode` / `PRes` sum encoding;
no reachable parse produces it. -/
def pInvariantMsg : String := "Parser invariant: result of the wrong kind"

/-- One fuel-indexed step function covering the whole mutually recursive
recursive-descent parser of src/parser.rs; each `PCode` constructor plays the
part of one `Parser` method or of one loop inside a method. The parsing state
is the remaining token stream; `panic!` calls are errors. -/
def runP : Nat → List Token → PCode → Except String (PRes × List Token)
  | 0, _, _ => .error "Parser fuel exhausted"
  | n + 1, toks, c =>
    match c with
    | .pprogram =>
      if cur toks = .EOF then .ok (.stmts [], toks)
      else do
        match ← runP n toks .pstatement with
        | (.stmt st, toks1) =>
          match ← runP n toks1 .pprogram with
          | (.stmts rest, toks2) => return (.stmts (st :: rest), toks2)
          | _ => .error pInvariantMsg
        | _ => .error pInvariantMsg
    | .pstatement =>
      match cur toks with
      | .Let => runP n toks .plet
      | .Print => runP n toks .pprint
      | .If => runP n toks .pif
      | .While => runP n toks .pwhile
      | .Loop => runP n toks .ploop
      | .Break => do
        let toks1 ← eat .Break toks
        return (.stmt .Break, toks1)
      | .Continue => do
        let toks1 ← eat .Continue toks
        return (.stmt .Continue, toks1)
      | .Return => runP n toks .preturn
      | .Fn => runP n toks .pfn
      | .Identifier _ => runP n toks .pidentifier_stmt
      | _ => .error "Parser panic: unexpected token in statement"
    | .pidentifier_stmt =>
      match cur toks with
      | .Identifier name => do
        let toks1 ← eat (.Identifier "") toks
        if cur toks1 = .Equal then do
          let toks2 ← eat .Equal toks1
          match ← runP n toks2 .pexpr with
          | (.expr value, toks3) => return (.stmt (.Assign name value), toks3)
          | _ => .error pInvariantMsg
        else if cur toks1 = .LParen then do
          let toks2 ← eat .LParen toks1
          match ← runP n toks2 .parguments with
          | (.exprs args, toks3) => do
            let toks4 ← eat .RParen toks3
            return (.stmt (.ExprStmt (.Call name args)), toks4)
          | _ => .error pInvariantMsg
        else .error "Parser panic: unexpected token after identifier in statement"
      | _ => .error "Parser panic: expected identifier"
    | .pfn => do
      let toks1 ← eat .Fn toks
      match cur toks1 with
      | .Identifier name => do
        let toks2 ← eat (.Identifier "") toks1
        let toks3 ← eat .LParen toks2
        let pr ←
          (if cur toks3 ≠ .RParen then runP n toks3 .pparams
           else .ok (.names [], toks3))
        match pr with
        | (.names params, toks4) => do
          let toks5 ← eat .RParen toks4
          let toks6 ← eat .Do toks5
          match ← runP n toks6 .pblock with
          | (.stmts body, toks7) => do
            let toks8 ← eat .End toks7
            return (.stmt (.Fn name params body), toks8)
          | _ => .error pInvariantMsg
        | _ => .error pInvariantMsg
      | _ => .error "Parser panic: expected function name"
    | .pparams =>
      match cur toks with
      | .Identifier name => do
        let toks1 ← eat (.Identifier "") toks
        if cur toks1 = .Comma then do
          let toks2 ← eat .Comma toks1
          match ← runP n toks2 .pparams with
          | (.names rest, toks3) => return (.names (name :: rest), toks3)
          | _ => .error pInvariantMsg
        else return (.names [name], toks1)
      | _ => .error "Parser panic: expected parameter name"
    | .preturn => do
      let toks1 ← eat .Return toks
      match cur toks1 with
      | .End | .Else | .ElseIf | .EOF | .Let | .Print | .If | .While | .Loop
      | .Break | .Continue | .Fn | .Return =>
        return (.stmt (.Return .Nil), toks1)
      | _ =>
        match ← runP n toks1 .pexpr with
        | (.expr e, toks2) => return (.stmt (.Return e), toks2)
        | _ => .error pInvariantMsg
    | .parguments =>
      if cur toks ≠ .RParen then runP n toks .pargloop
      else .ok (.exprs [], toks)
    | .pargloop => do
      match ← runP n toks .pexpr with
      | (.expr e, toks1) =>
        if cur toks1 = .Comma then do
          let toks2 ← eat .Comma toks1
          match ← runP n toks2 .pargloop with
          | (.exprs rest, toks3) => return (.exprs (e :: rest), toks3)
          | _ => .error pInvariantMsg
        else return (.exprs [e], toks1)
      | _ => .error pInvariantMsg
    | .pwhile => do
      let toks1 ← eat .While toks
      match ← runP n toks1 .pexpr with
      | (.expr condition, toks2) => do
        let toks3 ← eat .Do toks2
        match ← runP n toks3 .pblock with
        | (.stmts body, toks4) => do
          let toks5 ← eat .End toks4
          return (.stmt (.While condition body), toks5)
        | _ => .error pInvariantMsg
      | _ => .error pInvariantMsg
    | .ploop => do
      let toks1 ← eat .Loop toks
      let toks2 ← eat .Do toks1
      match ← runP n toks2 .pblock with
      | (.stmts body, toks3) => do
        let toks4 ← eat .End toks3
        return (.stmt (.Loop body), toks4)
      | _ => .error pInvariantMsg
    | .pif => do
      let toks1 ← eat .If toks
      match ← runP n toks1 .pexpr with
      | (.expr condition, toks2) => do
        let toks3 ← eat .Then toks2
        match ← runP n toks3 .pblock with
        | (.stmts then_branch, toks4) =>
          if cur toks4 = .ElseIf then do
            let toks5 ← eat .ElseIf toks4
            match ← runP n toks5 .pexpr with
            | (.expr cond, toks6) => do
              let toks7 ← eat .Then toks6
              match ← runP n toks7 .pblock with
              | (.stmts branch, toks8) =>
                if cur toks8 = .ElseIf ∨ cur toks8 = .Else then
                  match cur toks8 with
                  | .ElseIf => do
                    match ← runP n toks8 .precursive_elseif with
                    | (.stmt inner, toks9) =>
                      return (.stmt (.If condition then_branch
                        (some [.If cond branch (some [inner])])), toks9)
                    | _ => .error pInvariantMsg
                  | .Else => do
                    let toks9 ← eat .Else toks8
                    match ← runP n toks9 .pelse_block with
                    | (.stmts stmts, toks10) => do
                      let toks11 ← eat .End toks10
                      return (.stmt (.If condition then_branch
                        (some [.If cond branch (some stmts)])), toks11)
                    | _ => .error pInvariantMsg
                  | _ => .error "Parser panic: unreachable"
                else do
                  let toks9 ← eat .End toks8
                  return (.stmt (.If condition then_branch
                    (some [.If cond branch none])), toks9)
              | _ => .error pInvariantMsg
            | _ => .error pInvariantMsg
          else if cur toks4 = .Else then do
            let toks5 ← eat .Else toks4
            match ← runP n toks5 .pelse_block with
            | (.stmts stmts, toks6) => do
              let toks7 ← eat .End toks6
              return (.stmt (.If condition then_branch (some stmts)), toks7)
            | _ => .error pInvariantMsg
          else do
            let toks5 ← eat .End toks4
            return (.stmt (.If condition then_branch none), toks5)
        | _ => .error pInvariantMsg
      | _ => .error pInvariantMsg
    | .precursive_elseif => do
      let toks1 ← eat .ElseIf toks
      match ← runP n toks1 .pexpr with
      | (.expr cond, toks2) => do
        let toks3 ← eat .Then toks2
        match ← runP n toks3 .pblock with
        | (.stmts branch, toks4) =>
          if cur toks4 = .ElseIf then do
            match ← runP n toks4 .precursive_elseif with
            | (.stmt inner, toks5) =>
              return (.stmt (.If cond branch (some [inner])), toks5)
            | _ => .error pInvariantMsg
          else if cur toks4 = .Else then do
            let toks5 ← eat .Else toks4
            match ← runP n toks5 .pelse_block with
            | (.stmts stmts, toks6) => do
              let toks7 ← eat .End toks6
              return (.stmt (.If cond branch (some stmts)), toks7)
            | _ => .error pInvariantMsg
          else do
            let toks5 ← eat .End toks4
            return (.stmt (.If cond branch none), toks5)
        | _ => .error pInvariantMsg
      | _ => .error pInvariantMsg
    | .pblock =>
      if check_end_of_block toks then .ok (.stmts [], toks)
      else do
        match ← runP n toks .pstatement with
        | (.stmt st, toks1) =>
          match ← runP n toks1 .pblock with
          | (.stmts rest, toks2) => return (.stmts (st :: rest), toks2)
          | _ => .error pInvariantMsg
        | _ => .error pInvariantMsg
    | .pelse_block =>
      if cur toks = .End ∨ cur toks = .EOF then .ok (.stmts [], toks)
      else do
        match ← runP n toks .pstatement with
        | (.stmt st, toks1) =>
          match ← runP n toks1 .pelse_block with
          | (.stmts rest, toks2) => return (.stmts (st :: rest), toks2)
          | _ => .error pInvariantMsg
        | _ => .error pInvariantMsg
    | .plet => do
      let toks1 ← eat .Let toks
      let mt ←
        (if cur toks1 = .Mod then do
          let toks2 ← eat .Mod toks1
          return (true, toks2)
        else .ok (false, toks1) : Except String (Bool × List Token))
      match cur mt.2 with
      | .Identifier name => do
        let toks3 ← eat (.Identifier "") mt.2
        let toks4 ← eat .Equal toks3
        match ← runP n toks4 .pexpr with
        | (.expr value, toks5) => return (.stmt (.Let name mt.1 value), toks5)
        | _ => .error pInvariantMsg
      | _ => .error "Parser panic: expected identifier after let"
    | .pprint => do
      let toks1 ← eat .Print toks
      let toks2 ← eat .LParen toks1
      match ← runP n toks2 .pexpr with
      | (.expr e, toks3) => do
        let toks4 ← eat .RParen toks3
        return (.stmt (.Print e), toks4)
      | _ => .error pInvariantMsg
    | .pexpr => runP n toks .plogic_or
    | .plogic_or => do
      match ← runP n toks .plogic_and with
      | (.expr left, toks1) => runP n toks1 (.por_loop left)
      | _ => .error pInvariantMsg
    | .por_loop left =>
      if cur toks = .Or then do
        let toks1 ← eat .Or toks
        match ← runP n toks1 .plogic_and with
        | (.expr right, toks2) =>
          runP n toks2 (.por_loop (.Binary left .Or right))
        | _ => .error pInvariantMsg
      else .ok (.expr left, toks)
    | .plogic_and => do
      match ← runP n toks .pequality with
      | (.expr left, toks1) => runP n toks1 (.pand_loop left)
      | _ => .error pInvariantMsg
    | .pand_loop left =>
      if cur toks = .And then do
        let toks1 ← eat .And toks
        match ← runP n toks1 .pequality with
        | (.expr right, toks2) =>
          runP n toks2 (.pand_loop (.Binary left .And right))
        | _ => .error pInvariantMsg
      else .ok (.expr left, toks)
    | .pequality => do
      match ← runP n toks .prelational with
      | (.expr left, toks1) => runP n toks1 (.peq_loop left)
      | _ => .error pInvariantMsg
    | .peq_loop left =>
      match cur toks with
      | .EqualEqual => do
        let toks1 ← eat .EqualEqual toks
        match ← runP n toks1 .prelational with
        | (.expr right, toks2) =>
          runP n toks2 (.peq_loop (.Binary left .Equal right))
        | _ => .error pInvariantMsg
      | .BangEqual => do
        let toks1 ← eat .BangEqual toks
        match ← runP n toks1 .prelational with
        | (.expr right, toks2) =>
          runP n toks2 (.peq_loop (.Binary left .NotEqual right))
        | _ => .error pInvariantMsg
      | _ => .ok (.expr left, toks)
    | .prelational => do
      match ← runP n toks .pterm with
      | (.expr left, toks1) => runP n toks1 (.prel_loop left)
      | _ => .error pInvariantMsg
    | .prel_loop left =>
      match cur toks with
      | .Less => do
        let toks1 ← eat .Less toks
        match ← runP n toks1 .pterm with
        | (.expr right, toks2) =>
          runP n toks2 (.prel_loop (.Binary left .Lt right))
        | _ => .error pInvariantMsg
      | .LessEqual => do
        let toks1 ← eat .LessEqual toks
        match ← runP n toks1 .pterm with
        | (.expr right, toks2) =>
          runP n toks2 (.prel_loop (.Binary left .LtEq right))
        | _ => .error pInvariantMsg
      | .Greater => do
        let toks1 ← eat .Greater toks
        match ← runP n toks1 .pterm with
        | (.expr right, toks2) =>
          runP n toks2 (.prel_loop (.Binary left .Gt right))
        | _ => .error pInvariantMsg
      | .GreaterEqual => do
        let toks1 ← eat .GreaterEqual toks
        match ← runP n toks1 .pterm with
        | (.expr right, toks2) =>
          runP n toks2 (.prel_loop (.Binary left .GtEq right))
        | _ => .error pInvariantMsg
      | _ => .ok (.expr left, toks)
    | .pterm => do
      match ← runP n toks .pfactor with
      | (.expr left, toks1) => runP n toks1 (.pterm_loop left)
      | _ => .error pInvariantMsg
    | .pterm_loop left =>
      match cur toks with
      | .Plus => do
        let toks1 ← eat .Plus toks
        match ← runP n toks1 .pfactor with
        | (.expr right, toks2) =>
          runP n toks2 (.pterm_loop (.Binary left .Add right))
        | _ => .error pInvariantMsg
      | .Minus => do
        let toks1 ← eat .Minus toks
        match ← runP n toks1 .pfactor with
        | (.expr right, toks2) =>
          runP n toks2 (.pterm_loop (.Binary left .Sub right))
        | _ => .error pInvariantMsg
      | _ => .ok (.expr left, toks)
    | .pfactor => do
      match ← runP n toks .punary with
      | (.expr left, toks1) => runP n toks1 (.pfactor_loop left)
      | _ => .error pInvariantMsg
    | .pfactor_loop left =>
      match cur toks with
      | .Star => do
        let toks1 ← eat .Star toks
        match ← runP n toks1 .punary with
        | (.expr right, toks2) =>
          runP n toks2 (.pfactor_loop (.Binary left .Mul right))
        | _ => .error pInvariantMsg
      | .Slash => do
        let toks1 ← eat .Slash toks
        match ← runP n toks1 .punary with
        | (.expr right, toks2) =>
          runP n toks2 (.pfactor_loop (.Binary left .Div right))
        | _ => .error pInvariantMsg
      | .Percent => do
        let toks1 ← eat .Percent toks
        match ← runP n toks1 .punary with
        | (.expr right, toks2) =>
          runP n toks2 (.pfactor_loop (.Binary left .Mod right))
        | _ => .error pInvariantMsg
      | _ => .ok (.expr left, toks)
    | .punary =>
      if cur toks = .Not then do
        let toks1 ← eat .Not toks
        match ← runP n toks1 .punary with
        | (.expr e, toks2) => return (.expr (.Unary .Not e), toks2)
        | _ => .error pInvariantMsg
      else runP n toks .pprimary
    | .pprimary =>
      match cur toks with
      | .Number v => do
        let toks1 ← eat (.Number 0) toks
        return (.expr (.Number v), toks1)
      | .True => do
        let toks1 ← eat .True toks
        return (.expr (.Boolean true), toks1)
      | .False => do
        let toks1 ← eat .False toks
        return (.expr (.Boolean false), toks1)
      | .Nil => do
        let toks1 ← eat .Nil toks
        return (.expr .Nil, toks1)
      | .Identifier name => do
        let toks1 ← eat (.Identifier "") toks
        if cur toks1 = .LParen then do
          let toks2 ← eat .LParen toks1
          match ← runP n toks2 .parguments with
          | (.exprs args, toks3) => do
            let toks4 ← eat .RParen toks3
            return (.expr (.Call name args), toks4)
          | _ => .error pInvariantMsg
        else return (.expr (.Variable name), toks1)
      | .LParen => do
        let toks1 ← eat .LParen toks
        match ← runP n toks1 .pexpr with
        | (.expr e, toks2) => do
          let toks3 ← eat .RParen toks2
          return (.expr e, toks3)
        | _ => .error pInvariantMsg
      | _ => .error "Unexpected token in expression"

/-- Entry point `Parser::parse_program` (src/parser.rs): parse statements
until `EOF`, returning them with the remaining token stream. -/
def parse_program (fuel : Nat) (toks : List Token) :
    Except String (List Stmt × List Token) :=
  match runP fuel toks .pprogram with
  | .ok (.stmts l, toks1) => .ok (l, toks1)
  | .ok _ => .error pInvariantMsg
  | .error msg => .error msg

/-- Entry point `Parser::parse_expr` (src/parser.rs): parse one expression. -/
def parse_expr (fuel : Nat) (toks : List Token) :
    Except String (Expr × List Token) :=
  match runP fuel toks .pexpr with
  | .ok (.expr e, toks1) => .ok (e, toks1)
  | .ok _ => .error pInvariantMsg
  | .error msg => .error msg

/-- Entry point `Parser::parse_unary` (src/parser.rs). -/
def parse_unary (fuel : Nat) (toks : List Token) :
    Except String (Expr × List Token) :=
  match runP fuel toks .punary with
  | .ok (.expr e, toks1) => .ok (e, toks1)
  | .ok _ => .error pInvariantMsg
  | .error msg => .error msg

/-- Entry point `Parser::parse_primary` (src/parser.rs). -/
def parse_primary (fuel : Nat) (toks : List Token) :
    Except String (Expr × List Token) :=
  match runP fuel toks .pprimary with
  | .ok (.expr e, toks1) => .ok (e, toks1)
  | .ok _ => .error pInvariantMsg
  | .error msg => .error msg

/-- Entry point `Parser::parse_if` (src/parser.rs). -/
def parse_if (fuel : Nat) (toks : List Token) :
    Except String (Stmt × List Token) :=
  match runP fuel toks .pif with
  | .ok (.stmt st, toks1) => .ok (st, toks1)
  | .ok _ => .error pInvariantMsg
  | .error msg => .error msg

/-- Token stream of
`if a then print(1) elseif b then print(2) elseif c then print(3) else print(4) end`. -/
def elseifToks : List Token :=
  [.If, .Identifier "a", .Then, .Print, .LParen, .Number 1, .RParen,
   .ElseIf, .Identifier "b", .Then, .Print, .LParen, .Number 2, .RParen,
   .ElseIf, .Identifier "c", .Then, .Print, .LParen, .Number 3, .RParen,
   .Else, .Print, .LParen, .Number 4, .RParen, .End]

/-- Token stream of the explicitly nested form
`if a then print(1) else if b then print(2) else if c then print(3) else print(4) end end end`. -/
def nestedIfToks : List Token :=
  [.If, .Identifier "a", .Then, .Print, .LParen, .Number 1, .RParen,
   .Else, .If, .Identifier "b", .Then, .Print, .LParen, .Number 2, .RParen,
   .Else, .If, .Identifier "c", .Then, .Print, .LParen, .Number 3, .RParen,
   .Else, .Print, .LParen, .Number 4, .RParen, .End, .End, .End]

/-- The one AST both streams parse to: each `elseif` becomes a single nested
if-statement placed in the enclosing if's else slot. -/
def elseifAST : Stmt :=
  .If (.Variable "a") [.Print (.Number 1)]
    (some [.If (.Variable "b") [.Print (.Number 2)]
      (some [.If (.Variable "c") [.Print (.Number 3)]
        (some [.Print (.Number 4)])])])

/-- A state whose globals hold an immutable `x`, at function depth zero. -/
def c1Global : Interpreter :=
  { Interpreter.new with globals := [("x", ⟨.Integer 1, false⟩)] }

/-- A state inside a function call whose innermost scope already holds `x`. -/
def c1InFn : Interpreter :=
  { globals := [], call_stack := [[[("x", ⟨.Integer 1, false⟩)]]],
    loop_depth := 0, function_depth := 1 }

/-- A state inside a function call where `x` lives in an outer scope of the
frame but not in the innermost scope. -/
def c1Shadow : Interpreter :=
  { globals := [], call_stack := [[[], [("x", ⟨.Integer 1, false⟩)]]],
    loop_depth := 0, function_depth := 1 }

/-- A state inside a function call with an empty innermost scope. -/
def c2InFn : Interpreter :=
  { globals := [("g", ⟨.Integer 7, true⟩)], call_stack := [[[], []]],
    loop_depth := 0, function_depth := 1 }

/-- Program declaring a function inside a function body, then calling the
inner name at top level after the outer call returned. -/
def c4Prog : List Stmt :=
  [.Fn "outer" [] [.Fn "inner" [] []],
   .ExprStmt (.Call "outer" []),
   .ExprStmt (.Call "inner" [])]

/-- A state at top level, inside a loop (loop depth 5), whose globals bind
`f` to a zero-parameter function whose body is a bare `break`. -/
def c5State : Interpreter :=
  { globals := [("f", ⟨.Function "f" [] [.Break], false⟩)],
    call_stack := [[[]]], loop_depth := 5, function_depth := 0 }

/-- Program whose `while` condition calls a function that mutates the global
`g` and then returns `false`; the loop body would set `g` to 99 but never
runs. -/
def c9Prog : List Stmt :=
  [.Let "g" true (.Number 0),
   .Fn "f" [] [.Assign "g" (.Number 1), .Return (.Boolean false)],
   .While (.Call "f" []) [.Assign "g" (.Number 99)]]

/-- Kind tag of a result. -/
def resKind : Res → Nat
  | .val _ => 0
  | .vals _ => 1
  | .sig _ => 2
  | .ret _ => 3

/-- Kind tag of the result each kind of pending work must produce. -/
def codeKind : Code → Nat
  | .expr _ => 0
  | .argList _ => 1
  | .stmt _ => 2
  | .seq _ => 2
  | .whileIter _ _ => 2
  | .loopIter _ => 2
  | .callBody _ => 3

/-- Every successful `run` produces a result of the kind its pending work
calls for; in particular the `invariantMsg` arms of the wrappers are dead. -/
theorem run_kindOk :
    ∀ (n : Nat) (s : Interpreter) (c : Code) (p : Res × Interpreter),
      run n s c = .ok p → resKind p.1 = codeKind c := by
  intro n
  induction n with
  | zero => intro s c p h; simp [run] at h
  | succ n ih =>
    intro s c p h
    cases c <;> simp only [run, liftVal, arithmetic, comparison] at h <;>
      repeat' split at h
    all_goals
      first
      | (cases h; rfl)
      | simp at h
      | exact ih _ _ _ h
      | simpa [codeKind] using ih _ _ _ h

/-- Inversion of the `Interpreter.eval_expr` wrapper on success. -/
theorem eval_expr_inv {n : Nat} {s s' : Interpreter} {e : Expr} {v : Value}
    (h : Interpreter.eval_expr n s e = .ok (v, s')) :
    run n s (.expr e) = .ok (.val v, s') := by
  unfold Interpreter.eval_expr at h
  cases hrun : run n s (.expr e) with
  | error msg => rw [hrun] at h; exact absurd h (by simp)
  | ok p =>
    obtain ⟨res, st⟩ := p
    rw [hrun] at h
    cases res with
    | val v0 =>
      simp only [Except.ok.injEq, Prod.mk.injEq] at h
      rw [h.1, h.2]
    | vals l => exact absurd h (by simp)
    | sig r => exact absurd h (by simp)
    | ret v0 => exact absurd h (by simp)

/-- Inversion of the `Interpreter.eval_expr` wrapper on failure: for
expression work the wrapper's dead `invariantMsg` arm cannot fire, so the
error comes from `run` itself. -/
theorem eval_expr_inv_error {n : Nat} {s : Interpreter} {e : Expr}
    {msg : String} (h : Interpreter.eval_expr n s e = .error msg) :
    run n s (.expr e) = .error msg := by
  unfold Interpreter.eval_expr at h
  cases hrun : run n s (.expr e) with
  | error m => rw [hrun] at h; simp only [Except.error.injEq] at h; rw [h]
  | ok p =>
    obtain ⟨res, st⟩ := p
    have hk := run_kindOk n s (.expr e) (res, st) hrun
    rw [hrun] at h
    cases res with
    | val v0 => exact absurd h (by simp)
    | vals l => simp [resKind, codeKind] at hk
    | sig r => simp [resKind, codeKind] at hk
    | ret v0 => simp [resKind, codeKind] at hk

/-- Inversion of the `Interpreter.execute_stmt` wrapper on success. -/
theorem execute_stmt_inv {n : Nat} {s s' : Interpreter} {st : Stmt}
    {r : ExecutionResult}
    (h : Interpreter.execute_stmt n s st = .ok (r, s')) :
    run n s (.stmt st) = .ok (.sig r, s') := by
  unfold Interpreter.execute_stmt at h
  cases hrun : run n s (.stmt st) with
  | error msg => rw [hrun] at h; exact absurd h (by simp)
  | ok p =>
    obtain ⟨res, stt⟩ := p
    rw [hrun] at h
    cases res with
    | sig r0 =>
      simp only [Except.ok.injEq, Prod.mk.injEq] at h
      rw [h.1, h.2]
    | val v0 => exact absurd h (by simp)
    | vals l => exact absurd h (by simp)
    | ret v0 => exact absurd h (by simp)

/-- Wrapping onto the signed 64-bit range is the identity inside the range. -/
theorem wrap64_eq_self {x : Int}
    (h1 : -9223372036854775808 ≤ x) (h2 : x < 9223372036854775808) :
    wrap64 x = x := by
  unfold wrap64
  rw [Int.emod_eq_of_lt (by omega) (by omega)]
  omega

/-- Entering a scope does not change the loop-depth counter. -/
theorem enter_scope_loop_depth (s : Interpreter) :
    s.enter_scope.loop_depth = s.loop_depth := by
  unfold Interpreter.enter_scope
  split <;> rfl

/-- Entering a scope does not change the function-depth counter. -/
theorem enter_scope_function_depth (s : Interpreter) :
    s.enter_scope.function_depth = s.function_depth := by
  unfold Interpreter.enter_scope
  split <;> rfl

/-- The frame part of assignment finds nothing when the name is absent from
every scope of the frame. -/
theorem assignScopes_none {frame : List Scope} {name : String} {v : Value}
    (h : ∀ sc ∈ frame, scopeFind sc name = none) :
    assignScopes frame name v = none := by
  induction frame with
  | nil => rfl
  | cons sc rest ih =>
    simp only [assignScopes, h sc (by simp)]
    rw [ih (fun x hx => h x (by simp [hx]))]
    rfl

/-- Truncated remainder of a nonpositive dividend is nonpositive (the sign
of Rust's `%` follows the dividend). -/
theorem tmod_nonpos_of_nonpos {a : Int} (b : Int) (h : a ≤ 0) :
    Int.tmod a b ≤ 0 := by
  have key : Int.tmod (-a) b = -Int.tmod a b := by
    rw [Int.tmod_def, Int.tmod_def, Int.neg_tdiv]
    ring
  have h3 : 0 ≤ Int.tmod (-a) b := Int.tmod_nonneg b (by omega)
  omega

/-- C1 counterexample: at top level (function depth zero) every declaration
targets the single global scope, so redeclaring `x` inside a nested `if`
block at top level fails with the global-redeclaration error instead of
succeeding as a shadowing declaration. -/
theorem C1_counterexample :
    Interpreter.interpret 10 .new
      [.Let "x" false (.Number 1),
       .If (.Boolean true) [.Let "x" false (.Number 2)] none] =
      .error "Runtime Error: Global variable 'x' already declared." := rfl

/-- C1 (amended): redeclaring a name in the same scope always fails — in the
global scope at function depth zero and in the innermost scope of the current
frame inside a function — and inside a function a declaration whose name is
absent from the innermost scope always succeeds, shadowing any outer binding
(lookup afterwards sees the new value). At top level, however, every
declaration targets the global scope even when it executes inside a nested
block, so there is no block-level shadowing at function depth zero. -/
theorem C1_redeclaration_and_shadowing :
    (∀ (s : Interpreter) (name : String) (v : Value) (m : Bool) (w : Variable),
      s.function_depth = 0 → scopeFind s.globals name = some w →
      s.define_variable name v m =
        .error ("Runtime Error: Global variable '" ++ name ++
          "' already declared.")) ∧
    (∀ (s : Interpreter) (name : String) (v : Value) (m : Bool) (w : Variable)
       (sc : Scope) (scs : List Scope) (stack : List Frame),
      s.function_depth ≠ 0 → s.call_stack = (sc :: scs) :: stack →
      scopeFind sc name = some w →
      s.define_variable name v m =
        .error ("Runtime Error: Variable '" ++ name ++
          "' already declared in this scope.")) ∧
    (∀ (s : Interpreter) (name : String) (v : Value) (m : Bool)
       (sc : Scope) (scs : List Scope) (stack : List Frame),
      s.function_depth ≠ 0 → s.call_stack = (sc :: scs) :: stack →
      scopeFind sc name = none →
      s.define_variable name v m =
        .ok { s with call_stack := (scopeInsert sc name ⟨v, m⟩ :: scs) :: stack } ∧
      Interpreter.get_variable
        { s with call_stack := (scopeInsert sc name ⟨v, m⟩ :: scs) :: stack }
        name = .ok v) := by
  refine ⟨?_, ?_, ?_⟩
  · intro s name v m w h0 h1
    simp [Interpreter.define_variable, h0, h1]
  · intro s name v m w sc scs stack h0 h1 h2
    simp [Interpreter.define_variable, h0, h1, h2]
  · intro s name v m sc scs stack h0 h1 h2
    constructor
    · simp [Interpreter.define_variable, h0, h1, h2]
    · simp [Interpreter.get_variable, findScopes, scopeFind, scopeInsert]

/-- Witness for C1: the three parts at concrete states. -/
theorem C1_witness :
    (c1Global.define_variable "x" (.Integer 2) false =
      .error "Runtime Error: Global variable 'x' already declared.") ∧
    (c1InFn.define_variable "x" (.Integer 2) false =
      .error "Runtime Error: Variable 'x' already declared in this scope.") ∧
    (c1Shadow.define_variable "x" (.Integer 2) true =
      .ok { c1Shadow with
        call_stack := [[[("x", ⟨.Integer 2, true⟩)], [("x", ⟨.Integer 1, false⟩)]]] } ∧
     Interpreter.get_variable
      { c1Shadow with
        call_stack := [[[("x", ⟨.Integer 2, true⟩)], [("x", ⟨.Integer 1, false⟩)]]] }
      "x" = .ok (.Integer 2)) :=
  ⟨C1_redeclaration_and_shadowing.1 c1Global "x" (.Integer 2) false
      ⟨.Integer 1, false⟩ rfl rfl,
   C1_redeclaration_and_shadowing.2.1 c1InFn "x" (.Integer 2) false
      ⟨.Integer 1, false⟩ [("x", ⟨.Integer 1, false⟩)] [] []
      (by decide) rfl rfl,
   C1_redeclaration_and_shadowing.2.2 c1Shadow "x" (.Integer 2) true
      [] [[("x", ⟨.Integer 1, false⟩)]] []
      (by decide) rfl rfl⟩

/-- C2: a declaration executed at function depth zero creates its binding in
the single global scope, leaving the block-local scopes alone, so it is
still defined and visible after an enclosing `if`/`while`/`loop` block
exits; inside a function call (function depth nonzero) the binding instead
goes into the innermost block-local scope and the globals are untouched. The
concrete part runs `if true then let x = 42 end` at top level and finds `x`
in the globals afterwards, the block scope having been popped. -/
theorem C2_top_level_declarations_are_global :
    (∀ (s : Interpreter) (name : String) (v : Value) (m : Bool),
      s.function_depth = 0 → scopeFind s.globals name = none →
      s.define_variable name v m =
        .ok { s with globals := scopeInsert s.globals name ⟨v, m⟩ }) ∧
    (∀ (s : Interpreter) (name : String) (v : Value) (m : Bool)
       (sc : Scope) (scs : List Scope) (stack : List Frame),
      s.function_depth ≠ 0 → s.call_stack = (sc :: scs) :: stack →
      scopeFind sc name = none →
      s.define_variable name v m =
        .ok { s with call_stack := (scopeInsert sc name ⟨v, m⟩ :: scs) :: stack } ∧
      ({ s with call_stack := (scopeInsert sc name ⟨v, m⟩ :: scs) :: stack } :
        Interpreter).globals = s.globals) ∧
    (Interpreter.interpret 10 .new
        [.If (.Boolean true) [.Let "x" false (.Number 42)] none] =
      .ok { Interpreter.new with globals := [("x", ⟨.Integer 42, false⟩)] } ∧
     Interpreter.get_variable
        { Interpreter.new with globals := [("x", ⟨.Integer 42, false⟩)] } "x" =
      .ok (.Integer 42)) := by
  refine ⟨?_, ?_, rfl, rfl⟩
  · intro s name v m h0 h1
    simp [Interpreter.define_variable, h0, h1]
  · intro s name v m sc scs stack h0 h1 h2
    exact ⟨by simp [Interpreter.define_variable, h0, h1, h2], rfl⟩

/-- Witness for C2: both quantified parts at concrete states. -/
theorem C2_witness :
    (Interpreter.new.define_variable "y" (.Integer 7) true =
      .ok { Interpreter.new with globals := [("y", ⟨.Integer 7, true⟩)] }) ∧
    (c2InFn.define_variable "y" (.Integer 7) true =
      .ok { c2InFn with call_stack := [[[("y", ⟨.Integer 7, true⟩)], []]] } ∧
     ({ c2InFn with call_stack := [[[("y", ⟨.Integer 7, true⟩)], []]] } :
        Interpreter).globals = c2InFn.globals) :=
  ⟨C2_top_level_declarations_are_global.1 .new "y" (.Integer 7) true rfl rfl,
   C2_top_level_declarations_are_global.2.1 c2InFn "y" (.Integer 7) true
     [] [[]] [] (by decide) rfl rfl⟩

/-- C3 counterexample: a minus sign with no left operand is a parse error —
`-5` is rejected by the expression parser, not parsed as a negation. -/
theorem C3_counterexample :
    parse_expr 20 [.Minus, .Number 5] =
      .error "Unexpected token in expression" := rfl

/-- C3 (amended): the parser has no unary-minus rule at all — `parse_unary`
only recognizes `not` and otherwise falls through to `parse_primary`, which
has no arm for a minus token — so source text `-e` (a minus sign with no
left operand) is always a parse error, never a negation of `e`. -/
theorem C3_no_unary_minus (n : Nat) (rest : List Token) :
    parse_unary (n + 2) (.Minus :: rest) =
      .error "Unexpected token in expression" ∧
    parse_primary (n + 1) (.Minus :: rest) =
      .error "Unexpected token in expression" ∧
    parse_expr (n + 9) (.Minus :: rest) =
      .error "Unexpected token in expression" :=
  ⟨rfl, rfl, rfl⟩

/-- C4 counterexample: a function declaration executed inside a function call
is frame-local, not global — after `outer` (whose body declares `inner`)
returns, `inner` is not defined, so calling it fails. -/
theorem C4_counterexample :
    Interpreter.interpret 20 .new c4Prog =
      .error "Runtime Error: Variable 'inner' not defined." := rfl

/-- C4 (amended): a function declaration statement executed at function
depth zero binds the function value as an immutable binding in the single
global scope — assignment to it then fails as immutable and redeclaring the
global name fails — but a function declaration executed inside a function
call binds in the innermost scope of the current frame instead, leaving the
globals untouched, so the binding dies with the frame. -/
theorem C4_fn_binding :
    (∀ (n : Nat) (s : Interpreter) (name : String) (params : List String)
       (body : List Stmt),
      s.function_depth = 0 → scopeFind s.globals name = none →
      Interpreter.execute_stmt (n + 1) s (.Fn name params body) =
        .ok (.Normal,
          { s with globals :=
              scopeInsert s.globals name ⟨.Function name params body, false⟩ })) ∧
    (∀ (s : Interpreter) (name : String) (fv : Value) (v : Value)
       (frame : List Scope) (stack : List Frame),
      s.call_stack = frame :: stack →
      (∀ sc ∈ frame, scopeFind sc name = none) →
      scopeFind s.globals name = some ⟨fv, false⟩ →
      s.assign_variable name v =
        .error ("Runtime Error: Cannot reassign immutable variable '" ++
          name ++ "'.")) ∧
    (∀ (s : Interpreter) (name : String) (v : Value) (m : Bool) (w : Variable),
      s.function_depth = 0 → scopeFind s.globals name = some w →
      s.define_variable name v m =
        .error ("Runtime Error: Global variable '" ++ name ++
          "' already declared.")) ∧
    (∀ (n : Nat) (s : Interpreter) (name : String) (params : List String)
       (body : List Stmt) (sc : Scope) (scs : List Scope) (stack : List Frame),
      s.function_depth ≠ 0 → s.call_stack = (sc :: scs) :: stack →
      scopeFind sc name = none →
      Interpreter.execute_stmt (n + 1) s (.Fn name params body) =
        .ok (.Normal,
          { s with call_stack :=
              (scopeInsert sc name ⟨.Function name params body, false⟩ :: scs) ::
                stack })) := by
  refine ⟨?_, ?_, ?_, ?_⟩
  · intro n s name params body h0 h1
    simp [Interpreter.execute_stmt, run, Interpreter.define_variable, h0, h1]
  · intro s name fv v frame stack h0 hall h1
    simp [Interpreter.assign_variable, h0, assignScopes_none hall, h1]
  · intro s name v m w h0 h1
    simp [Interpreter.define_variable, h0, h1]
  · intro n s name params body sc scs stack h0 h1 h2
    simp [Interpreter.execute_stmt, run, Interpreter.define_variable, h0, h1, h2]

/-- Witness for C4: the four parts at concrete states. -/
theorem C4_witness :
    (Interpreter.execute_stmt 1 .new (.Fn "f" [] []) =
      .ok (.Normal,
        { Interpreter.new with globals := [("f", ⟨.Function "f" [] [], false⟩)] })) ∧
    (Interpreter.assign_variable
        { Interpreter.new with globals := [("f", ⟨.Function "f" [] [], false⟩)] }
        "f" (.Integer 3) =
      .error "Runtime Error: Cannot reassign immutable variable 'f'.") ∧
    (Interpreter.define_variable
        { Interpreter.new with globals := [("f", ⟨.Function "f" [] [], false⟩)] }
        "f" (.Integer 3) false =
      .error "Runtime Error: Global variable 'f' already declared.") ∧
    (Interpreter.execute_stmt 1 c2InFn (.Fn "g2" [] []) =
      .ok (.Normal,
        { c2InFn with
          call_stack := [[[("g2", ⟨.Function "g2" [] [], false⟩)], []]] })) :=
  ⟨C4_fn_binding.1 0 .new "f" [] [] rfl rfl,
   C4_fn_binding.2.1
     { Interpreter.new with globals := [("f", ⟨.Function "f" [] [], false⟩)] }
     "f" (.Function "f" [] []) (.Integer 3) [[]] [] rfl (by simp [scopeFind]) rfl,
   C4_fn_binding.2.2.1
     { Interpreter.new with globals := [("f", ⟨.Function "f" [] [], false⟩)] }
     "f" (.Integer 3) false ⟨.Function "f" [] [], false⟩ rfl rfl,
   C4_fn_binding.2.2.2 0 c2InFn "g2" [] [] [] [[]] [] (by decide) rfl rfl⟩

/-- C5: `break` or `continue` executed while the loop-depth counter is zero,
and `return` executed while the function-depth counter is zero, each fail
with their dedicated error — also when nested inside an `if` branch, and
also inside a function body called from within a loop, because every call
runs its body with the loop-depth counter reset to zero. -/
theorem C5_control_flow_context_errors :
    (∀ (n : Nat) (s : Interpreter), s.loop_depth = 0 →
      Interpreter.execute_stmt (n + 1) s .Break =
        .error "Runtime error: 'break' used outside of loop") ∧
    (∀ (n : Nat) (s : Interpreter), s.loop_depth = 0 →
      Interpreter.execute_stmt (n + 1) s .Continue =
        .error "Runtime error: 'continue' used outside of loop") ∧
    (∀ (n : Nat) (s : Interpreter) (e : Expr), s.function_depth = 0 →
      Interpreter.execute_stmt (n + 1) s (.Return e) =
        .error "Runtime error: 'return' used outside of function") ∧
    (∀ (n : Nat) (s : Interpreter), s.loop_depth = 0 →
      Interpreter.execute_stmt (n + 3) s (.If (.Boolean true) [.Break] none) =
        .error "Runtime error: 'break' used outside of loop") ∧
    (∀ (n : Nat) (s : Interpreter) (f : String),
      s.get_variable f = .ok (.Function f [] [.Break]) →
      Interpreter.eval_expr (n + 4) s (.Call f []) =
        .error "Runtime error: 'break' used outside of loop") := by
  refine ⟨?_, ?_, ?_, ?_, ?_⟩
  · intro n s h
    simp [Interpreter.execute_stmt, run, h]
  · intro n s h
    simp [Interpreter.execute_stmt, run, h]
  · intro n s e h
    simp [Interpreter.execute_stmt, run, h]
  · intro n s h
    simp [Interpreter.execute_stmt, run, enter_scope_loop_depth, h]
  · intro n s f h
    simp [Interpreter.eval_expr, run, h]

/-- Witness for C5: the five parts at concrete states; `c5State` sits inside
a loop (loop depth 5) yet the call still turns the `break` in the body of
`f` into the dedicated error. -/
theorem C5_witness :
    (Interpreter.execute_stmt 1 .new .Break =
      .error "Runtime error: 'break' used outside of loop") ∧
    (Interpreter.execute_stmt 1 .new .Continue =
      .error "Runtime error: 'continue' used outside of loop") ∧
    (Interpreter.execute_stmt 1 .new (.Return (.Number 1)) =
      .error "Runtime error: 'return' used outside of function") ∧
    (Interpreter.execute_stmt 3 .new (.If (.Boolean true) [.Break] none) =
      .error "Runtime error: 'break' used outside of loop") ∧
    (Interpreter.eval_expr 4 c5State (.Call "f" []) =
      .error "Runtime error: 'break' used outside of loop") :=
  ⟨C5_control_flow_context_errors.1 0 .new rfl,
   C5_control_flow_context_errors.2.1 0 .new rfl,
   C5_control_flow_context_errors.2.2.1 0 .new (.Number 1) rfl,
   C5_control_flow_context_errors.2.2.2.1 0 .new rfl,
   C5_control_flow_context_errors.2.2.2.2 0 c5State "f" rfl⟩

/-- C6: the `elseif` chain and the textually nested `if ... else if ... end`
form parse to the same AST (each `elseif` becomes a single nested
if-statement in the enclosing if's else slot), and execution never touches
the else slot — where every later `elseif` condition and branch lives — once
the condition evaluates to true, so only the first matching branch runs. -/
theorem C6_elseif_desugaring :
    (parse_program 100 elseifToks = .ok ([elseifAST], []) ∧
     parse_program 100 nestedIfToks = .ok ([elseifAST], [])) ∧
    (∀ (n : Nat) (s s1 : Interpreter) (c : Expr) (t : List Stmt)
       (e1 e2 : Option (List Stmt)),
      Interpreter.eval_expr n s c = .ok (.Boolean true, s1) →
      Interpreter.execute_stmt (n + 1) s (.If c t e1) =
        Interpreter.execute_stmt (n + 1) s (.If c t e2)) := by
  refine ⟨⟨rfl, rfl⟩, ?_⟩
  intro n s s1 c t e1 e2 h
  have h' := eval_expr_inv h
  simp [Interpreter.execute_stmt, run, h']

/-- Witness for C6: the quantified part at a concrete true condition, where
one else slot holds a print statement and the other is empty. -/
theorem C6_witness :
    Interpreter.execute_stmt 2 .new
      (.If (.Boolean true) [] (some [.Print (.Number 9)])) =
    Interpreter.execute_stmt 2 .new (.If (.Boolean true) [] none) :=
  C6_elseif_desugaring.2 1 .new .new (.Boolean true) []
    (some [.Print (.Number 9)]) none rfl

/-- C7: evaluating a division or modulo whose right operand is the integer
zero always fails with the dedicated division-by-zero (resp. modulo-by-zero)
error, for every integer left operand — never a host crash or a silently
produced default value. -/
theorem C7_div_mod_by_zero (n : Nat) (s s1 s2 : Interpreter) (l r : Expr)
    (a : Int)
    (hl : Interpreter.eval_expr n s l = .ok (.Integer a, s1))
    (hr : Interpreter.eval_expr n s1 r = .ok (.Integer 0, s2)) :
    Interpreter.eval_expr (n + 1) s (.Binary l .Div r) =
      .error "Runtime Error: Division by zero." ∧
    Interpreter.eval_expr (n + 1) s (.Binary l .Mod r) =
      .error "Runtime Error: Modulo by zero." := by
  have hl' := eval_expr_inv hl
  have hr' := eval_expr_inv hr
  constructor <;> simp [Interpreter.eval_expr, run, hl', hr']

/-- Witness for C7 at `7 / 0` and `7 % 0`. -/
theorem C7_witness :
    Interpreter.eval_expr 2 .new (.Binary (.Number 7) .Div (.Number 0)) =
      .error "Runtime Error: Division by zero." ∧
    Interpreter.eval_expr 2 .new (.Binary (.Number 7) .Mod (.Number 0)) =
      .error "Runtime Error: Modulo by zero." :=
  C7_div_mod_by_zero 1 .new .new .new (.Number 7) (.Number 0) 7 rfl rfl

/-- C8: with every intermediate value inside the signed 64-bit range,
`a + b - b` evaluates to `a`; and for positive `b`, `a % b` evaluates to the
host language's truncated remainder `Int.tmod a b` — the model of Rust's `%`
— whose sign follows the left operand. -/
theorem C8_integer_arithmetic (n : Nat) (s : Interpreter) (a b : Int)
    (ha1 : -9223372036854775808 ≤ a) (ha2 : a < 9223372036854775808)
    (hab1 : -9223372036854775808 ≤ a + b) (hab2 : a + b < 9223372036854775808) :
    Interpreter.eval_expr (n + 3) s
      (.Binary (.Binary (.Number a) .Add (.Number b)) .Sub (.Number b)) =
      .ok (.Integer a, s) ∧
    (0 < b →
      Interpreter.eval_expr (n + 2) s (.Binary (.Number a) .Mod (.Number b)) =
        .ok (.Integer (Int.tmod a b), s) ∧
      (0 ≤ a → 0 ≤ Int.tmod a b) ∧ (a ≤ 0 → Int.tmod a b ≤ 0)) := by
  have h1 : wrap64 (a + b) = a + b := wrap64_eq_self hab1 hab2
  have h2 : wrap64 (a + b - b) = a := by
    have hab : a + b - b = a := by ring
    rw [hab]
    exact wrap64_eq_self ha1 ha2
  have h3 : wrap64 a = a := wrap64_eq_self ha1 ha2
  constructor
  · simp [Interpreter.eval_expr, run, arithmetic, liftVal, h1, h2, h3]
  · intro hb
    have hbne : ¬(b = 0) := by omega
    have hov : ¬(a = -9223372036854775808 ∧ b = -1) := by omega
    exact ⟨by simp [Interpreter.eval_expr, run, hbne, hov],
      fun ha => Int.tmod_nonneg b ha,
      fun ha => tmod_nonpos_of_nonpos b ha⟩

/-- Witness for C8 at a = 5, b = 3. -/
theorem C8_witness :
    (Interpreter.eval_expr 3 .new
      (.Binary (.Binary (.Number 5) .Add (.Number 3)) .Sub (.Number 3)) =
      .ok (.Integer 5, .new)) ∧
    (Interpreter.eval_expr 2 .new (.Binary (.Number 5) .Mod (.Number 3)) =
      .ok (.Integer (Int.tmod 5 3), .new) ∧
     (0 ≤ (5 : Int) → 0 ≤ Int.tmod 5 3) ∧
     ((5 : Int) ≤ 0 → Int.tmod 5 3 ≤ 0)) :=
  ⟨(C8_integer_arithmetic 0 .new 5 3 (by decide) (by decide) (by decide)
      (by decide)).1,
   (C8_integer_arithmetic 0 .new 5 3 (by decide) (by decide) (by decide)
      (by decide)).2 (by decide)⟩

/-- C9 counterexample: in `c9Prog` the while condition calls `f`, which sets
the outer global `g` to 1 before returning false; the condition therefore
evaluates to false on the first check and the body (which would set `g` to
99) runs zero times, yet the outer binding `g` did change — from 0 to 1 —
so the claim's unconditional frame condition fails. -/
theorem C9_counterexample :
    (match Interpreter.interpret 30 .new c9Prog with
     | .ok sf => sf.get_variable "g"
     | .error msg => .error msg) = .ok (.Integer 1) ∧
    Value.Integer 1 ≠ Value.Integer 0 :=
  ⟨rfl, by simp⟩

/-- C9 (amended): a while statement whose condition evaluates to boolean
false on the first check without itself changing the interpreter state
executes its body zero times — the outcome is `Normal` and is the same for
every body — and leaves the whole state, every outer binding and the
loop-depth counter included, exactly as it was. The no-side-effect proviso
is forced by the counterexample: the condition may call a state-mutating
function. -/
theorem C9_while_false_no_effect (n : Nat) (s : Interpreter) (c : Expr)
    (b : List Stmt)
    (h : Interpreter.eval_expr n { s with loop_depth := s.loop_depth + 1 } c =
      .ok (.Boolean false, { s with loop_depth := s.loop_depth + 1 })) :
    Interpreter.execute_stmt (n + 2) s (.While c b) = .ok (.Normal, s) := by
  have h' := eval_expr_inv h
  simp [Interpreter.execute_stmt, run, h']

/-- Witness for C9 at a literal false condition and a nonempty body. -/
theorem C9_witness :
    Interpreter.execute_stmt 3 .new
      (.While (.Boolean false) [.Print (.Number 0)]) =
      .ok (.Normal, .new) :=
  C9_while_false_no_effect 1 .new (.Boolean false) [.Print (.Number 0)] rfl

/-- C10: `and` / `or` are not short-circuiting — both operands are fully
evaluated before the result is computed, so if the right operand's
evaluation fails, the whole binary expression fails with that error even
when the left operand alone would determine the result (the statement holds
for every binary operator). -/
theorem C10_and_or_not_short_circuit (n : Nat) (s s1 : Interpreter)
    (l r : Expr) (op : Op) (v : Value) (msg : String)
    (hl : Interpreter.eval_expr n s l = .ok (v, s1))
    (hr : Interpreter.eval_expr n s1 r = .error msg) :
    Interpreter.eval_expr (n + 1) s (.Binary l op r) = .error msg := by
  have hl' := eval_expr_inv hl
  have hr' := eval_expr_inv_error hr
  simp [Interpreter.eval_expr, run, hl', hr']

/-- Witness for C10: `false and (1 / 0)` fails with the division error even
though the false left operand alone would decide an `and`. -/
theorem C10_witness :
    Interpreter.eval_expr 4 .new
      (.Binary (.Boolean false) .And (.Binary (.Number 1) .Div (.Number 0))) =
      .error "Runtime Error: Division by zero." :=
  C10_and_or_not_short_circuit 3 .new .new (.Boolean false)
    (.Binary (.Number 1) .Div (.Number 0)) .And (.Boolean false)
    "Runtime Error: Division by zero." rfl rfl

end Blood
